import Mathlib

/-!
# Verification of the issue-1 REST client (issue-one/issue-1-client-js)

A shallow embedding of the client library in Lean 4, faithful to the
JavaScript sources:

* `src/lib/utilites.js` — `attachAuthTokenToHeader`, `generateQueryParams`,
  `attachImageToRequest`, `makeRequest`, `calculateLimitOffset`,
  `CONNECTION_ERROR`;
* `src/lib/feed.js` — `getFeedPosts`, `NewFeedServiceClient`;
* the user-resource module — `getUser`, `deleteUser`, `addPostBookmark`,
  `deleteBookmark`, `removeProfilePicture`, `addProfilePicture`, …

JavaScript values that the code inspects dynamically (decoded response
bodies, query-parameter objects) are modelled by the inductive `Json`;
property order is preserved, and property assignment follows the JS rule
(update in place for an existing key, append for a new one).  The HTTP
transport (axios) is an external collaborator and is passed in as a
function argument; its settled outcome is `Except TransportRejection
HttpResponse`.  Thrown JS values are modelled by `Raised`.
-/

/-- Model of a decoded JavaScript/JSON value.  `undefined` is JS `undefined`
(a property that is present but has no value, e.g. `{limit: undefined}`,
is modelled as the key mapped to `undefined`). -/
inductive Json where
  | null
  | undefined
  | bool (b : Bool)
  | num (n : Int)
  | str (s : String)
  | obj (fields : List (String × Json))
deriving Repr

/-- First-match lookup of a property in an object field list; `undefined`
when absent (JS property access on an object). -/
def getField : List (String × Json) → String → Json
  | [], _ => .undefined
  | (k', v) :: rest, k => if k' = k then v else getField rest k

/-- JS property read `j[k]`: field lookup on objects, `undefined`
otherwise (the code only reads properties of object bodies). -/
def Json.get (j : Json) (k : String) : Json :=
  match j with
  | .obj fields => getField fields k
  | _ => .undefined

/-- JS property assignment on an object field list: update in place when
the key exists, append otherwise (preserves JS property order). -/
def setField : List (String × Json) → String → Json → List (String × Json)
  | [], k, v => [(k, v)]
  | (k', v') :: rest, k, v =>
      if k' = k then (k, v) :: rest else (k', v') :: setField rest k v

/-- JS property assignment `j[k] = v`.  In the source this is only ever
performed on a value already known to be an object (`jSend.errorCode =
…` after `!!error.response.data.status`), so the non-object case is
unreachable and left as the identity. -/
def Json.objSet (j : Json) (k : String) (v : Json) : Json :=
  match j with
  | .obj fields => .obj (setField fields k v)
  | other => other

/-- JS truthiness (`!!v`) of a decoded value. -/
def Json.truthy : Json → Bool
  | .null => false
  | .undefined => false
  | .bool b => b
  | .num n => n != 0
  | .str s => s != ""
  | .obj _ => true

/-- Header mappings (`{Authorization: "Bearer …", …}`), property order
preserved. -/
def Headers := List (String × String)
deriving DecidableEq, Repr

/-- First-match lookup of a header. -/
def Headers.find : Headers → String → Option String
  | [], _ => none
  | (k', v) :: rest, k => if k' = k then some v else Headers.find rest k

/-- JS property assignment on a header object: update in place when the
key exists, append otherwise. -/
def Headers.set : Headers → String → String → Headers
  | [], k, v => [(k, v)]
  | (k', v') :: rest, k, v =>
      if k' = k then (k, v) :: rest else (k', v') :: Headers.set rest k v

/-- Object spread `{...h1, ...h2}`: keys of `h1` in order, overridden or
extended by the keys of `h2`. -/
def Headers.merge (h1 h2 : Headers) : Headers :=
  h2.foldl (fun acc p => Headers.set acc p.1 p.2) h1

/-- The character class of the JS regex `/\s/` (ECMAScript WhiteSpace and
LineTerminator). -/
def jsIsWs (c : Char) : Bool :=
  c.val = 9 || c.val = 10 || c.val = 11 || c.val = 12 || c.val = 13 ||
  c.val = 32 || c.val = 0xa0 || c.val = 0x1680 ||
  (0x2000 ≤ c.val && c.val ≤ 0x200a) ||
  c.val = 0x2028 || c.val = 0x2029 || c.val = 0x202f ||
  c.val = 0x205f || c.val = 0x3000 || c.val = 0xfeff

/-- `String.prototype.split(/\s/)` on the character list: split at every
whitespace character, keeping empty segments (`"a ".split(/\s/)` is
`["a",""]`, `"".split(/\s/)` is `[""]`). -/
def jsSplitWs : List Char → List (List Char)
  | [] => [[]]
  | c :: rest =>
      let r := jsSplitWs rest
      if jsIsWs c then [] :: r
      else
        match r with
        | [] => [[c]]
        | h :: t => (c :: h) :: t

/-- `src/lib/utilites.js` lines 27–39.  `attachAuthTokenToHeader(authToken,
headers = {})`: returns `undefined` (`Except.ok none`) when the token is
falsy (the empty string), throws `Error("Invalid authToken")` when
`authToken.split(/\s/).length > 1`, and otherwise sets
`headers.Authorization = "Bearer " + authToken` on the given mapping and
returns that same mapping. -/
def attachAuthTokenToHeader (authToken : String) (headers : Headers := []) :
    Except String (Option Headers) :=
  if authToken = "" then .ok none
  else if (jsSplitWs authToken.data).length > 1 then .error "Invalid authToken"
  else .ok (some (headers.set "Authorization" ("Bearer " ++ authToken)))

/-- JS truthiness of an optional number argument (`undefined` and `0` are
falsy). -/
def truthyOptInt : Option Int → Bool
  | none => false
  | some n => n != 0

/-- JS truthiness of an optional string argument (`undefined` and `""`
are falsy). -/
def truthyOptStr : Option String → Bool
  | none => false
  | some s => s != ""

/-- JS truthiness of an optional boolean argument. -/
def truthyOptBool : Option Bool → Bool
  | none => false
  | some b => b

/-- An optional number argument as the stored property value (shorthand
`{limit, offset}` stores `undefined` for an absent argument). -/
def optIntVal : Option Int → Json
  | none => .undefined
  | some n => .num n

/-- An optional string argument as the stored property value. -/
def optStrVal : Option String → Json
  | none => .undefined
  | some s => .str s

/-- The destructured argument of `generateQueryParams` (every field may
be absent). -/
structure QueryOpts where
  pattern : Option String := none
  limit : Option Int := none
  offset : Option Int := none
  sortingOrder : Option String := none
  sortParameter : Option String := none
  onlyIds : Option Bool := none

/-- `src/lib/utilites.js` lines 51–73.  `generateQueryParams`: emits
`limit`/`offset` as a pair when `limit || offset` is truthy (the absent
one keeping an `undefined` value), `sort` when `sortParameter` is truthy
(suffixed `_<order>` when `sortingOrder` is truthy), `pattern` when
truthy, and `onlyPKeys: true` when `onlyIds` is truthy. -/
def generateQueryParams (o : QueryOpts) : List (String × Json) :=
  let params : List (String × Json) :=
    if truthyOptInt o.limit || truthyOptInt o.offset then
      [("limit", optIntVal o.limit), ("offset", optIntVal o.offset)]
    else []
  let params :=
    if truthyOptStr o.sortParameter then
      params ++ [("sort", .str ((o.sortParameter.getD "") ++
        (if truthyOptStr o.sortingOrder then "_" ++ (o.sortingOrder.getD "") else "")))]
    else params
  let params :=
    if truthyOptStr o.pattern then params ++ [("pattern", .str (o.pattern.getD ""))]
    else params
  if truthyOptBool o.onlyIds then params ++ [("onlyPKeys", .bool true)]
  else params

/-- `src/lib/utilites.js` lines 326–328.  `calculateLimitOffset(page = 1,
perPage = 25)`. -/
def calculateLimitOffset (page : Int := 1) (perPage : Int := 25) : Int × Int :=
  (perPage, (page - 1) * perPage)

/-- Content of one multipart form entry: raw bytes, plain text, or the
result of `JSON.stringify` on a value (the stringifier is a JS builtin;
the entry records the value it serialises). -/
inductive FormContent where
  | bytes (b : List Nat)
  | text (s : String)
  | jsonText (j : Json)
deriving Repr

/-- One `formData.append(key, data, options)` entry.  The source always
appends the image with options `{knownLength, contentType: image/*,
filename: imageName, header: {Content-Transfer-Encoding: binary}}`. -/
structure FormEntry where
  key : String
  content : FormContent
  knownLength : Option Nat := none
  contentType : Option String := none
  filename : Option String := none
  binaryTransfer : Bool := false
deriving Repr

/-- The `data` field of a request configuration: absent, a JSON body, or
a multipart form (for node, the byte encoding of the listed entries;
the encoder is external to the library). -/
inductive RequestBody where
  | absent
  | json (j : Json)
  | multipart (entries : List FormEntry)
deriving Repr

/-- A settled transport (axios) response: HTTP status line, headers and
the decoded body. -/
structure HttpResponse where
  status : Nat
  statusText : String
  headers : Headers
  data : Json
deriving Repr

/-- The transport-level (axios 0.x) error object as the `catch` block of
`makeRequest` reads it: an optional `error.response`, whether an outgoing
`error.request` exists, `error.code`, and the fields destructured from
`error.toJSON()` (message, name, nativeDescription, number, and the
request config).  Such an error object carries no `status` property and
is not a `DOMException`, so the first two `catch` branches never fire on
it. -/
structure AxiosError where
  response : Option HttpResponse := none
  hasRequest : Bool := false
  code : Option String := none
  message : String := ""
  name : String := ""
  nativeDescription : Option String := none
  number : Option Int := none
  configUrl : String := ""
  configTimeout : Json := .undefined
  configHeaders : Headers := []
  configData : RequestBody := .absent
  configMethod : String := ""
  configResponseType : String := ""
deriving Repr

/-- A transport rejection: either a `DOMException` raised by axios while
parsing, or an axios error object. -/
inductive TransportRejection where
  | domException (domName : String)
  | axiosError (e : AxiosError)
deriving Repr

/-- The response fields extracted at lines 255–260 of
`src/lib/utilites.js`. -/
structure RespInfo where
  status : Nat
  statusText : String
  headers : Headers
  data : Json
deriving Repr

/-- The request fields of the custom error object thrown at lines
301–316. -/
structure ReqInfo where
  url : String
  method : String
  headers : Headers
  data : RequestBody
  timeout : Json
  responseType : String
deriving Repr

/-- The custom error object thrown at lines 301–316 of
`src/lib/utilites.js`. -/
structure CustomThrow where
  message : String
  name : String
  description : String
  response : Option RespInfo
  request : ReqInfo
  number : Option Int
  code : Option String
deriving Repr

/-- A value thrown by `makeRequest`: a plain JS value (the jSend
envelope, possibly with `errorCode` attached), an `Error` object, an
`Error` object with an attached `domException` property, or the custom
error object. -/
inductive Raised where
  | value (v : Json)
  | errObj (msg : String)
  | errObjDom (msg : String) (domName : String)
  | custom (c : CustomThrow)
deriving Repr

/-- `src/lib/utilites.js` line 9: the module-level singleton
`CONNECTION_ERROR = Error("issue1.REST.client: connection could not be
made with issue1 REST")`. -/
def CONNECTION_ERROR : Raised :=
  .errObj "issue1.REST.client: connection could not be made with issue1 REST"

/-- Outcome of one `makeRequest` call: the promise resolves with a value
or rejects with a thrown value. -/
inductive RequestOutcome where
  | resolved (v : Json)
  | raised (r : Raised)
deriving Repr

/-- Strict comparison `v.status === "fail"` performed on the decoded
body (line 215) and on the caught error (line 223). -/
def isFailStatus (j : Json) : Bool :=
  match j.get "status" with
  | .str s => s == "fail"
  | _ => false

/-- The custom error object built by the tail of the `catch` block:
description accumulated so far, plus the axios description when truthy,
plus the fields destructured from `error.toJSON()`. -/
def customThrow (e : AxiosError) (desc : String) (resp : Option RespInfo) :
    CustomThrow :=
  { message := e.message
    name := e.name
    description := desc ++ e.nativeDescription.getD ""
    response := resp
    request :=
      { url := e.configUrl, method := e.configMethod, headers := e.configHeaders
        data := e.configData, timeout := e.configTimeout
        responseType := e.configResponseType }
    number := e.number
    code := e.code }

/-- `src/lib/utilites.js` lines 242–316: classification of an axios
error object.  With a response: when `!!error.response.data` and
`!!error.response.data.status`, attach `errorCode = error.response.status`
onto the jSend body and throw it; otherwise extract the response fields
and throw the custom error with description `there was a response; `.
Without a response but with a request: throw the singleton
`CONNECTION_ERROR` when `error.code === 'ENOTFOUND'`, otherwise the
custom error with description `no response was received; `.  Without a
request: the custom error with description `setting up request
failed; `. -/
def classifyAxios (e : AxiosError) : Raised :=
  match e.response with
  | some r =>
      if r.data.truthy && (r.data.get "status").truthy then
        .value (r.data.objSet "errorCode" (.num r.status))
      else
        .custom (customThrow e "there was a response; "
          (some { status := r.status, statusText := r.statusText
                  headers := r.headers, data := r.data }))
  | none =>
      if e.hasRequest then
        if e.code = some "ENOTFOUND" then CONNECTION_ERROR
        else .custom (customThrow e "no response was received; " none)
      else .custom (customThrow e "setting up request failed; " none)

/-- `src/lib/utilites.js` lines 211–317: processing of the settled
transport outcome.  On a fulfilled response whose decoded body has
`status === "fail"`, the body is thrown (line 217), caught, and rethrown
unchanged by the `error.status === "fail"` branch (lines 223–226) — so
the call raises the body itself.  Otherwise the call resolves with the
decoded body (line 219).  On a rejection: a `DOMException` named
`SyntaxError` becomes the parse error; another `DOMException` is wrapped;
an axios error object is classified by `classifyAxios`. -/
def dispatch : Except TransportRejection HttpResponse → RequestOutcome
  | .ok response =>
      if isFailStatus response.data then .raised (.value response.data)
      else .resolved response.data
  | .error (.domException domName) =>
      if domName = "SyntaxError" then
        .raised (.errObj "Invalid input: unable to parse input.")
      else
        .raised (.errObjDom
          "unexpected exception: DOMException thrown by axios. Attached to this error object under property {domException}"
          domName)
  | .error (.axiosError e) => .raised (classifyAxios e)

/-- The destructured second argument of `makeRequest` (defaults from
line 194 of `src/lib/utilites.js`).  `transformRequest` is passed through
verbatim to axios and never inspected, so it is not modelled. -/
structure MakeRequestOpts where
  method : String := "get"
  responseType : String := "json"
  headers : Option Headers := none
  data : RequestBody := .absent
  params : List (String × Json) := []

/-- The config object assembled at lines 195–207 and handed to axios. -/
structure AxiosConfig where
  method : String
  headers : Headers
  url : String
  responseType : String
  data : RequestBody
  params : List (String × Json)

/-- `config.headers` is `{...headers}`: a fresh object with the entries
of `headers`, or empty when `headers` is `undefined`. -/
def assembleConfig (URL : String) (o : MakeRequestOpts) : AxiosConfig :=
  { method := o.method, headers := o.headers.getD [], url := URL
    responseType := o.responseType, data := o.data, params := o.params }

/-- The HTTP transport (axios), an external collaborator: maps the
assembled config to a settled outcome. -/
def Transport := AxiosConfig → Except TransportRejection HttpResponse

/-- `src/lib/utilites.js` lines 194–318: `makeRequest(URL, config)`
assembles the axios config, performs the call, and normalises the
settled outcome via `dispatch`. -/
def makeRequest (transport : Transport) (URL : String)
    (o : MakeRequestOpts := {}) : RequestOutcome :=
  dispatch (transport (assembleConfig URL o))

/-- The `.data` property access that resource clients apply to the value
`makeRequest` resolved with (`(await makeRequest(...)).data`); a raised
outcome propagates unchanged. -/
def RequestOutcome.dataField : RequestOutcome → RequestOutcome
  | .resolved v => .resolved (v.get "data")
  | .raised r => .raised r

/-- The accumulation loop of `attachImageToRequest` for a `Readable`
stream (lines 109–116): starting from `Buffer.alloc(0)`, each `data`
event appends its chunk (`Buffer.concat([buffer, chunk], chunk.length +
buffer.length)`) until the stream signals `end`; the drained buffer is
the concatenation of all chunks. -/
def drainReadable (chunks : List (List Nat)) : List Nat :=
  chunks.foldl (fun buffer chunk => buffer ++ chunk) []

/-- The node-branch form data before the image is appended (lines
100–104): empty, or the `otherData` value JSON-stringified under key
`JSON`. -/
def nodeInitialForm : Option Json → List FormEntry
  | some od => [{ key := "JSON", content := .jsonText od }]
  | none => []

/-- The image payload accepted by `attachImageToRequest`: a node
`Buffer`, a node `Readable` stream (as the list of chunks its `data`
events deliver, each a byte list), a browser `Blob`/`File`, or a browser
`FormData` object. -/
inductive ImageData where
  | buffer (bytes : List Nat)
  | readable (chunks : List (List Nat))
  | blob (bytes : List Nat)
  | form (entries : List FormEntry)
deriving Repr

/-- The `{data, headers}` fragment returned by `attachImageToRequest`,
meant to be spread into a `makeRequest` config. -/
structure AttachResult where
  data : RequestBody
  headers : Headers
deriving Repr

/-- The inner helper `appendDataToFormData` of `attachImageToRequest`
(lines 87–96): appends the image bytes under key `image` with options
`knownLength`, `contentType: image/*`, `filename: imageName` and a
binary `Content-Transfer-Encoding` header. -/
def appendDataToFormData (formData : List FormEntry) (data : List Nat)
    (knownLength : Nat) (imageName : String) : List FormEntry :=
  formData ++ [{ key := "image", content := .bytes data
                 knownLength := some knownLength, contentType := some "image/*"
                 filename := some imageName, binaryTransfer := true }]

/-- `src/lib/utilites.js` lines 86–155.  `attachImageToRequest(imageData,
{headers = {}, otherData, imageName = 'client-js.jpg'})`.  `isNode` is
the environment flag from `browser-or-node`; `getFormHeaders` models the
external form-data library method `formData.getHeaders()` (the multipart
content-type header with its generated boundary).  In the node branch:
`otherData`, when present, is appended JSON-stringified under key `JSON`;
a `Buffer` is appended directly; a `Readable` is first drained completely
into a buffer (`Buffer.concat` per `data` event, i.e. the concatenation
of all chunks) and an empty drained buffer is an error; any other payload
is an error.  The node result is `{data: formData.getBuffer(), headers:
{...headers, ...formData.getHeaders()}}` — the multipart body is the
encoding of the listed entries.  In the browser branch: a `FormData`
must already hold an `image` entry and passes through with the caller
headers unchanged; a `Blob` is appended into a fresh form; anything else
is an error.  (The error message texts are the source texts with quote
characters elided.) -/
def attachImageToRequest (isNode : Bool)
    (getFormHeaders : List FormEntry → Headers) (imageData : ImageData)
    (headers : Headers := []) (otherData : Option Json := none)
    (imageName : String := "client-js.jpg") : Except String AttachResult :=
  if isNode then
    let formData : List FormEntry := nodeInitialForm otherData
    match imageData with
    | .buffer b =>
        let fd := appendDataToFormData formData b b.length imageName
        .ok { data := .multipart fd, headers := headers.merge (getFormHeaders fd) }
    | .readable chunks =>
        let buffer := drainReadable chunks
        if buffer.length = 0 then
          .error "Provided Readable stream has no data."
        else
          let fd := appendDataToFormData formData buffer buffer.length imageName
          .ok { data := .multipart fd, headers := headers.merge (getFormHeaders fd) }
    | _ =>
        .error "Only instances of Buffer or ReadStream supported for image data in node environment."
  else
    match imageData with
    | .form entries =>
        if entries.any (fun e => e.key == "image") then
          .ok { data := .multipart entries, headers := headers }
        else
          .error "Instance of FormData provided as image data but no item present under the key image"
    | .blob b =>
        .ok { data := .multipart (appendDataToFormData [] b b.length imageName)
              headers := headers }
    | _ =>
        .error "Only instances of FormData, Blob(File) supported for image data in browser environment."

/-- User-resource module, `getUser(baseURL, username, authToken = "")`:
GET `/users/{username}`, resolves with `response.data` (the `data` field
of the value `makeRequest` resolved with). -/
def getUser (transport : Transport) (baseURL username : String)
    (authToken : String := "") : Except String RequestOutcome := do
  let h ← attachAuthTokenToHeader authToken
  pure (makeRequest transport (baseURL ++ "/users/" ++ username)
    { headers := h }).dataField

/-- User-resource module, `addUser(baseURL, user)`: POST `/users` with
the user object as body, resolves with `.data`. -/
def addUser (transport : Transport) (baseURL : String) (user : Json) :
    RequestOutcome :=
  (makeRequest transport (baseURL ++ "/users")
    { method := "post", data := .json user }).dataField

/-- User-resource module, `deleteUser(baseURL, username, authToken)`:
DELETE `/users/{username}`; resolves with the full value `makeRequest`
resolved with (no `.data` access). -/
def deleteUser (transport : Transport) (baseURL username authToken : String) :
    Except String RequestOutcome := do
  let h ← attachAuthTokenToHeader authToken
  pure (makeRequest transport (baseURL ++ "/users/" ++ username)
    { method := "delete", headers := h })

/-- User-resource module, `updateUser(baseURL, username, user,
authToken)`: PUT `/users/{username}`, resolves with `.data`. -/
def updateUser (transport : Transport) (baseURL username : String)
    (user : Json) (authToken : String) : Except String RequestOutcome := do
  let h ← attachAuthTokenToHeader authToken
  pure (makeRequest transport (baseURL ++ "/users/" ++ username)
    { method := "put", headers := h, data := .json user }).dataField

/-- User-resource module, `searchUsers(baseURL, pattern = "", {limit,
offset, sortingOrder, sortParameter} = {})`: GET `/users` with
`generateQueryParams`, resolves with `.data`. -/
def searchUsers (transport : Transport) (baseURL : String)
    (pattern : String := "") (limit : Option Int := none)
    (offset : Option Int := none) (sortingOrder : Option String := none)
    (sortParameter : Option String := none) : RequestOutcome :=
  (makeRequest transport (baseURL ++ "/users")
    { method := "get"
      params := generateQueryParams
        { pattern := some pattern, limit := limit, offset := offset
          sortingOrder := sortingOrder, sortParameter := sortParameter } }).dataField

/-- User-resource module, `getUsers`: defined as `searchUsers` with an
empty pattern. -/
def getUsers (transport : Transport) (baseURL : String)
    (limit : Option Int := none) (offset : Option Int := none)
    (sortingOrder : Option String := none)
    (sortParameter : Option String := none) : RequestOutcome :=
  searchUsers transport baseURL "" limit offset sortingOrder sortParameter

/-- User-resource module, `addPostBookmark(baseURL, username, postID,
authToken)`: PUT `/users/{username}/bookmarks/{postID}`; resolves with
the full value `makeRequest` resolved with (no `.data` access). -/
def addPostBookmark (transport : Transport) (baseURL username : String)
    (postID : Int) (authToken : String) : Except String RequestOutcome := do
  let h ← attachAuthTokenToHeader authToken
  pure (makeRequest transport
    (baseURL ++ "/users/" ++ username ++ "/bookmarks/" ++ toString postID)
    { method := "put", headers := h })

/-- User-resource module, `getUserBookmarks(baseURL, username,
authToken)`: GET `/users/{username}/bookmarks`, resolves with `.data`. -/
def getUserBookmarks (transport : Transport) (baseURL username authToken : String) :
    Except String RequestOutcome := do
  let h ← attachAuthTokenToHeader authToken
  pure (makeRequest transport (baseURL ++ "/users/" ++ username ++ "/bookmarks")
    { method := "get", headers := h }).dataField

/-- User-resource module, `deleteBookmark(baseURL, username, postID,
authToken)`: DELETE `/users/{username}/bookmarks/{postID}`; resolves
with the full value `makeRequest` resolved with (no `.data` access). -/
def deleteBookmark (transport : Transport) (baseURL username : String)
    (postID : Int) (authToken : String) : Except String RequestOutcome := do
  let h ← attachAuthTokenToHeader authToken
  pure (makeRequest transport
    (baseURL ++ "/users/" ++ username ++ "/bookmarks/" ++ toString postID)
    { method := "delete", headers := h })

/-- User-resource module, `addProfilePicture(baseURL, username,
authToken, imageData, imageName = 'client-js.jpg')`: first awaits
`attachImageToRequest` (with the auth headers, destructured default `{}`
when the token is absent), then PUT `/users/{username}/picture` with the
attached fragment spread into the config; resolves with `.data`. -/
def addProfilePicture (isNode : Bool)
    (getFormHeaders : List FormEntry → Headers) (transport : Transport)
    (baseURL username authToken : String) (imageData : ImageData)
    (imageName : String := "client-js.jpg") : Except String RequestOutcome := do
  let h ← attachAuthTokenToHeader authToken
  let att ← attachImageToRequest isNode getFormHeaders imageData (h.getD [])
    none imageName
  pure (makeRequest transport (baseURL ++ "/users/" ++ username ++ "/picture")
    { method := "put", data := att.data, headers := some att.headers }).dataField

/-- User-resource module, `removeProfilePicture(baseURL, username,
authToken)`: DELETE `/users/{username}/picture`; resolves with the full
value `makeRequest` resolved with (no `.data` access). -/
def removeProfilePicture (transport : Transport)
    (baseURL username authToken : String) : Except String RequestOutcome := do
  let h ← attachAuthTokenToHeader authToken
  pure (makeRequest transport (baseURL ++ "/users/" ++ username ++ "/picture")
    { method := "delete", headers := h })

/-- `src/lib/feed.js` lines 20–40.  `getFeedPosts(baseURL, username,
authToken, {limit, offset, sorting, onlyIds = false} = {})`: builds the
params object `{onlyPKeys: onlyIds, limit, offset, sort: sorting}` when
`onlyIds || limit || offset || sorting` is truthy, GETs
`/users/{username}/feed/posts` and resolves with `.data`. -/
def getFeedPosts (transport : Transport) (baseURL username authToken : String)
    (limit : Option Int := none) (offset : Option Int := none)
    (sorting : Option String := none) (onlyIds : Bool := false) :
    Except String RequestOutcome := do
  let params : List (String × Json) :=
    if onlyIds || truthyOptInt limit || truthyOptInt offset || truthyOptStr sorting then
      [("onlyPKeys", .bool onlyIds), ("limit", optIntVal limit)
       , ("offset", optIntVal offset), ("sort", optStrVal sorting)]
    else []
  let h ← attachAuthTokenToHeader authToken
  pure (makeRequest transport (baseURL ++ "/users/" ++ username ++ "/feed/posts")
    { headers := h, params := params }).dataField

/-- `src/lib/feed.js` lines 42–53.  `subscribeToChannel(baseURL,
username, channelname, authToken)`: POST `/users/{username}/feed/channels`
with body `{channelname}`, resolves with `.data`. -/
def subscribeToChannel (transport : Transport)
    (baseURL username channelname authToken : String) :
    Except String RequestOutcome := do
  let h ← attachAuthTokenToHeader authToken
  pure (makeRequest transport (baseURL ++ "/users/" ++ username ++ "/feed/channels")
    { method := "post", headers := h
      data := .json (.obj [("channelname", .str channelname)]) }).dataField

/-- `src/lib/feed.js` lines 9–11.  The `getFeedPosts` method bound by
`NewFeedServiceClient(baseURL)`: it destructures `{limit, offset,
sorting, onlyIds = false}` from its options but forwards only `{limit,
offset, sorting}` to the module-level `getFeedPosts`, whose `onlyIds`
therefore takes its default `false`. -/
def clientGetFeedPosts (transport : Transport)
    (baseURL username token : String) (limit : Option Int := none)
    (offset : Option Int := none) (sorting : Option String := none)
    (onlyIds : Option Bool := none) : Except String RequestOutcome :=
  getFeedPosts transport baseURL username token limit offset sorting

/-! ## Helper lemmas -/

theorem jsSplitWs_ne_nil (l : List Char) : jsSplitWs l ≠ [] := by
  induction l with
  | nil => simp [jsSplitWs]
  | cons c rest ih =>
    by_cases hc : jsIsWs c
    · simp [jsSplitWs, hc]
    · cases h : jsSplitWs rest with
      | nil => exact absurd h ih
      | cons hd tl => simp [jsSplitWs, hc, h]

theorem jsSplitWs_length_gt_one_iff (l : List Char) :
    1 < (jsSplitWs l).length ↔ l.any jsIsWs = true := by
  induction l with
  | nil => simp [jsSplitWs]
  | cons c rest ih =>
    by_cases hc : jsIsWs c
    · have hne := jsSplitWs_ne_nil rest
      cases h : jsSplitWs rest with
      | nil => exact absurd h hne
      | cons hd tl => simp [jsSplitWs, hc, h]
    · cases h : jsSplitWs rest with
      | nil => exact absurd h (jsSplitWs_ne_nil rest)
      | cons hd tl =>
        rw [h] at ih
        simp only [jsSplitWs, hc, if_false, h, List.length_cons, List.any_cons] at *
        simpa [hc] using ih

theorem Headers.find_set_self (h : Headers) (k v : String) :
    (h.set k v).find k = some v := by
  induction h with
  | nil => simp [Headers.set, Headers.find]
  | cons p rest ih =>
    by_cases hk : p.1 = k
    · simp [Headers.set, hk, Headers.find]
    · simp [Headers.set, hk, Headers.find, ih]

theorem Headers.find_set_ne (h : Headers) (k v k' : String) (hne : k' ≠ k) :
    (h.set k v).find k' = h.find k' := by
  induction h with
  | nil => simp [Headers.set, Headers.find, Ne.symm hne]
  | cons p rest ih =>
    by_cases hk : p.1 = k
    · subst hk
      simp [Headers.set, Headers.find, hne, Ne.symm hne]
    · by_cases hk' : p.1 = k'
      · simp [Headers.set, hk, Headers.find, hk', hne]
      · simp [Headers.set, hk, Headers.find, hk', ih]

/-! ## Claim theorems -/

/-- The success envelope `{status: "success", data: {username: "alice"}}`
used in the spec example. -/
def aliceEnvelope : Json :=
  .obj [("status", .str "success"), ("data", .obj [("username", .str "alice")])]

/-- The fail body `{errorReason: X, errorMessage: Y}`. -/
def failData (X Y : String) : Json :=
  .obj [("errorReason", .str X), ("errorMessage", .str Y)]

/-- The fail envelope `{status: "fail", data: d}`. -/
def failEnvelope (d : Json) : Json :=
  .obj [("status", .str "fail"), ("data", d)]

/-- The success envelope `{status: "success", data: d}`. -/
def successEnvelope (d : Json) : Json :=
  .obj [("status", .str "success"), ("data", d)]

/-- A transport that settles every request with the same fulfilled
response (status line, headers, decoded body). -/
def okTransport (st : Nat) (stx : String) (hs : Headers) (body : Json) :
    Transport :=
  fun _ => .ok ⟨st, stx, hs, body⟩

/-- Claim C1, counterexample: on a transport response that settles
successfully with decoded body `{status: "success", data: {username:
"alice"}}`, `makeRequest` resolves with the whole envelope, and the
envelope is not the value `{username: "alice"}` that the claim says the
call resolves with. -/
theorem C1_counterexample :
    makeRequest
      (fun _ => .ok { status := 200, statusText := "OK", headers := []
                      data := aliceEnvelope })
      "https://issue1.example/users/alice" {} = .resolved aliceEnvelope ∧
    aliceEnvelope ≠ Json.obj [("username", .str "alice")] := by
  refine ⟨rfl, ?_⟩
  simp [aliceEnvelope]

/-- Claim C1, amended: for every transport response that settles
successfully with a decoded body equal to the envelope `{status:
"success", data: {username: "alice"}}`, `makeRequest` resolves with the
whole decoded envelope (line 219, `return response.data`); the `data`
field is extracted later by the resource clients, not by
`makeRequest`. -/
theorem C1_success_resolves_whole_envelope (st : Nat) (stx : String)
    (hs : Headers) (url : String) (o : MakeRequestOpts) :
    makeRequest (fun _ => .ok ⟨st, stx, hs, aliceEnvelope⟩) url o =
      .resolved aliceEnvelope := rfl

/-- Claim C2: for every transport rejection carrying a response with
HTTP status 400 whose decoded body is the envelope `{status: "fail",
data: {errorReason: X, errorMessage: Y}}`, `makeRequest` raises that
envelope with `errorCode = 400` attached; the raised value's `errorCode`
property is `400` and its `data` property is the body's `data`. -/
theorem C2_fail_response_raises_errorCode (X Y stx : String) (hs : Headers)
    (hasReq : Bool) (code : Option String) (msg nm : String)
    (nd : Option String) (num : Option Int) (curl : String) (ct : Json)
    (ch : Headers) (cd : RequestBody) (cm crt url : String)
    (o : MakeRequestOpts) :
    makeRequest
      (fun _ => .error (.axiosError
        { response := some ⟨400, stx, hs, failEnvelope (failData X Y)⟩
          hasRequest := hasReq, code := code, message := msg, name := nm
          nativeDescription := nd, number := num, configUrl := curl
          configTimeout := ct, configHeaders := ch, configData := cd
          configMethod := cm, configResponseType := crt })) url o =
      .raised (.value (.obj [("status", .str "fail")
        , ("data", failData X Y), ("errorCode", .num 400)])) ∧
    (Json.obj [("status", .str "fail"), ("data", failData X Y)
      , ("errorCode", .num 400)]).get "errorCode" = .num 400 ∧
    (Json.obj [("status", .str "fail"), ("data", failData X Y)
      , ("errorCode", .num 400)]).get "data" = failData X Y :=
  ⟨rfl, rfl, rfl⟩

/-- Claim C3, counterexample: `deleteUser` (like `addPostBookmark`,
`deleteBookmark` and `removeProfilePicture`) resolves with the full
success envelope rather than its `data` field: on a transport success
with body `{status: "success", data: {}}` it resolves with the whole
envelope, which differs from the `data` field `{}`. -/
theorem C3_counterexample :
    deleteUser
      (fun _ => .ok { status := 200, statusText := "OK", headers := []
                      data := successEnvelope (.obj []) })
      "https://issue1.example" "alice" "tok" =
      .ok (.resolved (successEnvelope (.obj []))) ∧
    successEnvelope (.obj []) ≠ Json.obj [] := by
  refine ⟨rfl, ?_⟩
  simp [successEnvelope]

/-- Claim C3, amended: for every exported resource operation, on a
transport success whose body is a `success` envelope the
data-extracting operations — `getUser`, `addUser`, `updateUser`,
`searchUsers`, `getUsers`, `getUserBookmarks`, `addProfilePicture`,
`getFeedPosts`, `subscribeToChannel` — resolve with the envelope's
`data` field, while `deleteUser`, `addPostBookmark`, `deleteBookmark`
and `removeProfilePicture` resolve with the full envelope (they omit
the `.data` access); and on a settled response whose body is a `fail`
envelope, every one of the thirteen operations raises the fail envelope
itself. -/
theorem C3_envelope_convention (d user : Json) (st : Nat)
    (stx b u chan pat : String) (hs : Headers) (pid : Int)
    (lim off : Option Int) (so sp sorting : Option String) (oi : Bool)
    (gfh : List FormEntry → Headers) (bytes : List Nat) (nm : String) :
    getUser (okTransport st stx hs (successEnvelope d)) b u "tok" =
      .ok (.resolved d) ∧
    addUser (okTransport st stx hs (successEnvelope d)) b user =
      .resolved d ∧
    updateUser (okTransport st stx hs (successEnvelope d)) b u user "tok" =
      .ok (.resolved d) ∧
    searchUsers (okTransport st stx hs (successEnvelope d)) b pat lim off so sp =
      .resolved d ∧
    getUsers (okTransport st stx hs (successEnvelope d)) b lim off so sp =
      .resolved d ∧
    getUserBookmarks (okTransport st stx hs (successEnvelope d)) b u "tok" =
      .ok (.resolved d) ∧
    addProfilePicture true gfh (okTransport st stx hs (successEnvelope d))
      b u "tok" (.buffer bytes) nm = .ok (.resolved d) ∧
    getFeedPosts (okTransport st stx hs (successEnvelope d)) b u "tok"
      lim off sorting oi = .ok (.resolved d) ∧
    subscribeToChannel (okTransport st stx hs (successEnvelope d)) b u chan "tok" =
      .ok (.resolved d) ∧
    deleteUser (okTransport st stx hs (successEnvelope d)) b u "tok" =
      .ok (.resolved (successEnvelope d)) ∧
    addPostBookmark (okTransport st stx hs (successEnvelope d)) b u pid "tok" =
      .ok (.resolved (successEnvelope d)) ∧
    deleteBookmark (okTransport st stx hs (successEnvelope d)) b u pid "tok" =
      .ok (.resolved (successEnvelope d)) ∧
    removeProfilePicture (okTransport st stx hs (successEnvelope d)) b u "tok" =
      .ok (.resolved (successEnvelope d)) ∧
    getUser (okTransport st stx hs (failEnvelope d)) b u "tok" =
      .ok (.raised (.value (failEnvelope d))) ∧
    addUser (okTransport st stx hs (failEnvelope d)) b user =
      .raised (.value (failEnvelope d)) ∧
    updateUser (okTransport st stx hs (failEnvelope d)) b u user "tok" =
      .ok (.raised (.value (failEnvelope d))) ∧
    searchUsers (okTransport st stx hs (failEnvelope d)) b pat lim off so sp =
      .raised (.value (failEnvelope d)) ∧
    getUsers (okTransport st stx hs (failEnvelope d)) b lim off so sp =
      .raised (.value (failEnvelope d)) ∧
    getUserBookmarks (okTransport st stx hs (failEnvelope d)) b u "tok" =
      .ok (.raised (.value (failEnvelope d))) ∧
    addProfilePicture true gfh (okTransport st stx hs (failEnvelope d))
      b u "tok" (.buffer bytes) nm = .ok (.raised (.value (failEnvelope d))) ∧
    getFeedPosts (okTransport st stx hs (failEnvelope d)) b u "tok"
      lim off sorting oi = .ok (.raised (.value (failEnvelope d))) ∧
    subscribeToChannel (okTransport st stx hs (failEnvelope d)) b u chan "tok" =
      .ok (.raised (.value (failEnvelope d))) ∧
    deleteUser (okTransport st stx hs (failEnvelope d)) b u "tok" =
      .ok (.raised (.value (failEnvelope d))) ∧
    addPostBookmark (okTransport st stx hs (failEnvelope d)) b u pid "tok" =
      .ok (.raised (.value (failEnvelope d))) ∧
    deleteBookmark (okTransport st stx hs (failEnvelope d)) b u pid "tok" =
      .ok (.raised (.value (failEnvelope d))) ∧
    removeProfilePicture (okTransport st stx hs (failEnvelope d)) b u "tok" =
      .ok (.raised (.value (failEnvelope d))) :=
  ⟨rfl, rfl, rfl, rfl, rfl, rfl, rfl, rfl, rfl, rfl, rfl, rfl, rfl, rfl, rfl,
   rfl, rfl, rfl, rfl, rfl, rfl, rfl, rfl, rfl, rfl, rfl⟩

/-- Claim C7: for every transport rejection that carries an outgoing
request but no response and whose error code is `ENOTFOUND`,
`makeRequest` raises the module-level singleton `CONNECTION_ERROR` —
every such call raises that same value, whatever the other fields of the
error and the request are. -/
theorem C7_enotfound_raises_connection_error (msg nm : String)
    (nd : Option String) (num : Option Int) (curl : String) (ct : Json)
    (ch : Headers) (cd : RequestBody) (cm crt url : String)
    (o : MakeRequestOpts) :
    makeRequest
      (fun _ => .error (.axiosError
        { response := none, hasRequest := true, code := some "ENOTFOUND"
          message := msg, name := nm, nativeDescription := nd, number := num
          configUrl := curl, configTimeout := ct, configHeaders := ch
          configData := cd, configMethod := cm, configResponseType := crt }))
      url o = .raised CONNECTION_ERROR := rfl

/-- Claim C9: `attachAuthTokenToHeader` with the empty-string token
returns `undefined` whatever the headers argument is — exactly as for an
absent token — and consequently `getUser` without an auth token performs
`makeRequest` with `headers: undefined`, so the config assembled for the
transport carries an empty header object with no `Authorization`
entry. -/
theorem C9_empty_token_no_auth_header :
    (∀ h : Headers, attachAuthTokenToHeader "" h = .ok none) ∧
    (∀ (transport : Transport) (b u : String),
      getUser transport b u "" =
        .ok (makeRequest transport (b ++ "/users/" ++ u)
          { headers := none }).dataField) ∧
    (∀ b u : String,
      (assembleConfig (b ++ "/users/" ++ u)
        { headers := none }).headers = [] ∧
      ((assembleConfig (b ++ "/users/" ++ u)
        { headers := none }).headers).find "Authorization" = none) :=
  ⟨fun _ => rfl, fun _ _ _ => rfl, fun _ _ => ⟨rfl, rfl⟩⟩

/-- Claim C10: the `getFeedPosts` method bound by `NewFeedServiceClient`
discards its `onlyIds` option: for every transport, username, token,
limit, offset and sorting, the call with `onlyIds = true` is the very
same computation — same URL, headers and query parameters handed to the
transport, and same result — as the call with `onlyIds = false` or with
`onlyIds` absent, namely the module-level `getFeedPosts` with its
defaulted `onlyIds = false`. -/
theorem C10_client_discards_onlyIds (transport : Transport)
    (b u tok : String) (limit offset : Option Int) (sorting : Option String) :
    clientGetFeedPosts transport b u tok limit offset sorting (some true) =
      clientGetFeedPosts transport b u tok limit offset sorting (some false) ∧
    clientGetFeedPosts transport b u tok limit offset sorting (some true) =
      clientGetFeedPosts transport b u tok limit offset sorting none ∧
    clientGetFeedPosts transport b u tok limit offset sorting (some true) =
      getFeedPosts transport b u tok limit offset sorting false :=
  ⟨rfl, rfl, rfl⟩

/-- `generateQueryParams` as the concatenation of its four independent
segments. -/
theorem generateQueryParams_eq (o : QueryOpts) :
    generateQueryParams o =
      (if truthyOptInt o.limit || truthyOptInt o.offset then
        [("limit", optIntVal o.limit), ("offset", optIntVal o.offset)]
       else []) ++
      (if truthyOptStr o.sortParameter then
        [("sort", Json.str ((o.sortParameter.getD "") ++
          (if truthyOptStr o.sortingOrder then "_" ++ (o.sortingOrder.getD "") else "")))]
       else []) ++
      (if truthyOptStr o.pattern then [("pattern", Json.str (o.pattern.getD ""))]
       else []) ++
      (if truthyOptBool o.onlyIds then [("onlyPKeys", Json.bool true)]
       else []) := by
  by_cases h1 : truthyOptInt o.limit || truthyOptInt o.offset <;>
  by_cases h2 : truthyOptStr o.sortParameter <;>
  by_cases h3 : truthyOptStr o.pattern <;>
  by_cases h4 : truthyOptBool o.onlyIds <;>
  simp [generateQueryParams, h1, h2, h3, h4]

/-- Claim C4: a token containing any whitespace character makes
`attachAuthTokenToHeader` throw `Error("Invalid authToken")`; a
non-empty token without whitespace makes it return the passed-in header
mapping updated in place with `Authorization = "Bearer " + token` (every
other entry of the mapping is preserved). -/
theorem C4_attachAuthTokenToHeader_spec (token : String) (headers : Headers) :
    (token.data.any jsIsWs = true →
      attachAuthTokenToHeader token headers = .error "Invalid authToken") ∧
    (token ≠ "" → token.data.any jsIsWs = false →
      attachAuthTokenToHeader token headers =
        .ok (some (headers.set "Authorization" ("Bearer " ++ token))) ∧
      (headers.set "Authorization" ("Bearer " ++ token)).find "Authorization" =
        some ("Bearer " ++ token) ∧
      ∀ k, k ≠ "Authorization" →
        (headers.set "Authorization" ("Bearer " ++ token)).find k =
          headers.find k) := by
  constructor
  · intro hany
    have hne : token ≠ "" := by
      intro h
      subst h
      exact absurd hany (by decide)
    have hgt : 1 < (jsSplitWs token.data).length :=
      (jsSplitWs_length_gt_one_iff _).mpr hany
    simp [attachAuthTokenToHeader, hne, hgt]
  · intro hne hany
    have hle : ¬ 1 < (jsSplitWs token.data).length := by
      rw [jsSplitWs_length_gt_one_iff]
      simp [hany]
    exact ⟨by simp [attachAuthTokenToHeader, hne, hle],
      Headers.find_set_self _ _ _,
      fun k hk => Headers.find_set_ne _ _ _ _ hk⟩

/-- Concrete instances of `C4_attachAuthTokenToHeader_spec`: the token
`a b` (inner whitespace) is rejected; the token `abc` produces the input
mapping extended with `Authorization: Bearer abc`. -/
theorem C4_witness :
    attachAuthTokenToHeader "a b" [] = .error "Invalid authToken" ∧
    attachAuthTokenToHeader "abc" [("X", "y")] =
      .ok (some [("X", "y"), ("Authorization", "Bearer abc")]) :=
  ⟨(C4_attachAuthTokenToHeader_spec "a b" []).1 (by decide),
   ((C4_attachAuthTokenToHeader_spec "abc" [("X", "y")]).2
     (by decide) (by decide)).1⟩

/-- Claim C5, counterexample: with `limit` present with the numeric
value `0` (and `offset` absent), `generateQueryParams` returns the empty
mapping — it contains neither the `limit` key nor the `offset` key,
because `0` is falsy in the `limit || offset` test. -/
theorem C5_counterexample :
    generateQueryParams { limit := some 0 } = [] ∧
    ¬ ∃ v, ("limit", v) ∈ generateQueryParams { limit := some 0 } := by
  refine ⟨rfl, ?_⟩
  rintro ⟨v, hv⟩
  have h : generateQueryParams { limit := some 0 } = ([] : List (String × Json)) := rfl
  rw [h] at hv
  exact List.not_mem_nil _ hv

/-- Claim C5, amended: whenever at least one of `limit`/`offset` is
truthy (present with a nonzero value), the result contains both the
`limit` key and the `offset` key, the absent one carrying an `undefined`
value; whenever neither is truthy (absent, or present with value `0`),
the result contains neither key. -/
theorem C5_limit_offset_pair (o : QueryOpts) :
    ((truthyOptInt o.limit || truthyOptInt o.offset) = true →
      ("limit", optIntVal o.limit) ∈ generateQueryParams o ∧
      ("offset", optIntVal o.offset) ∈ generateQueryParams o) ∧
    ((truthyOptInt o.limit || truthyOptInt o.offset) = false →
      ∀ p ∈ generateQueryParams o, p.1 ≠ "limit" ∧ p.1 ≠ "offset") := by
  constructor
  · intro h
    rw [generateQueryParams_eq]
    simp [h]
  · intro h
    rw [generateQueryParams_eq]
    by_cases h2 : truthyOptStr o.sortParameter <;>
    by_cases h3 : truthyOptStr o.pattern <;>
    by_cases h4 : truthyOptBool o.onlyIds <;>
    simp [h, h2, h3, h4]

/-- Concrete instance of `C5_limit_offset_pair`: with `limit = 5` and no
`offset`, both keys appear, `offset` with an `undefined` value. -/
theorem C5_witness :
    ("limit", optIntVal (some 5)) ∈ generateQueryParams { limit := some 5 } ∧
    ("offset", optIntVal none) ∈ generateQueryParams { limit := some 5 } :=
  (C5_limit_offset_pair { limit := some 5 }).1 (by decide)

/-- Claim C6, counterexample: `sortParameter` present as the empty
string is falsy, so no `sort` key is emitted even though the parameter
is present. -/
theorem C6_counterexample :
    generateQueryParams { sortParameter := some "" } = [] ∧
    ¬ ∃ v, ("sort", v) ∈ generateQueryParams { sortParameter := some "" } := by
  refine ⟨rfl, ?_⟩
  rintro ⟨v, hv⟩
  have h : generateQueryParams { sortParameter := some "" } =
      ([] : List (String × Json)) := rfl
  rw [h] at hv
  exact List.not_mem_nil _ hv

/-- Claim C6, amended: `generateQueryParams` emits a `sort` key exactly
when `sortParameter` is truthy (present and non-empty); with
`sortParameter = "username"` and `sortingOrder = "asc"` the result is
exactly `{sort: "username_asc"}`, and with `sortingOrder` alone no key
at all is produced. -/
theorem C6_sort_key (o : QueryOpts) :
    ((∃ v, ("sort", v) ∈ generateQueryParams o) ↔
      truthyOptStr o.sortParameter = true) ∧
    generateQueryParams { sortParameter := some "username", sortingOrder := some "asc" } =
      [("sort", Json.str "username_asc")] ∧
    generateQueryParams { sortingOrder := some "asc" } = [] := by
  refine ⟨⟨?_, ?_⟩, rfl, rfl⟩
  · rintro ⟨v, hv⟩
    by_cases hs : truthyOptStr o.sortParameter
    · exact hs
    · rw [generateQueryParams_eq] at hv
      by_cases h1 : truthyOptInt o.limit || truthyOptInt o.offset <;>
      by_cases h3 : truthyOptStr o.pattern <;>
      by_cases h4 : truthyOptBool o.onlyIds <;>
      simp [hs, h1, h3, h4] at hv
  · intro h
    refine ⟨Json.str ((o.sortParameter.getD "") ++
      (if truthyOptStr o.sortingOrder then "_" ++ (o.sortingOrder.getD "") else "")), ?_⟩
    rw [generateQueryParams_eq]
    simp [h]

/-- Draining an empty `Readable` stream in the node branch fails with
`Error("Provided Readable stream has no data.")`. -/
theorem attachImage_empty_stream (chunks : List (List Nat))
    (gfh : List FormEntry → Headers) (hdrs : Headers) (od : Option Json)
    (nm : String) (h : drainReadable chunks = []) :
    attachImageToRequest true gfh (.readable chunks) hdrs od nm =
      .error "Provided Readable stream has no data." := by
  simp [attachImageToRequest, h]

/-- Claim C8: in the node environment, `attachImageToRequest` drains a
`Readable` stream completely — the buffer it appends under `image` is
the concatenation of all the stream's chunks, with `knownLength` its
total length — and when the drained buffer is empty it throws
`Error("Provided Readable stream has no data.")`; `addProfilePicture`
then fails with that error whatever the transport is, i.e. before any
HTTP request is issued. -/
theorem C8_stream_drained_empty_rejected (chunks : List (List Nat))
    (gfh : List FormEntry → Headers) (hdrs : Headers) (od : Option Json)
    (nm : String) :
    (drainReadable chunks = [] →
      attachImageToRequest true gfh (.readable chunks) hdrs od nm =
        .error "Provided Readable stream has no data.") ∧
    (drainReadable chunks = [] →
      ∀ (transport : Transport) (b u : String),
        addProfilePicture true gfh transport b u "tok" (.readable chunks) nm =
          .error "Provided Readable stream has no data.") ∧
    (drainReadable chunks ≠ [] →
      attachImageToRequest true gfh (.readable chunks) hdrs od nm =
        .ok { data := .multipart (appendDataToFormData (nodeInitialForm od)
                (drainReadable chunks) (drainReadable chunks).length nm)
              headers := hdrs.merge (gfh (appendDataToFormData (nodeInitialForm od)
                (drainReadable chunks) (drainReadable chunks).length nm)) }) := by
  refine ⟨fun h => attachImage_empty_stream chunks gfh hdrs od nm h, ?_, ?_⟩
  · intro h transport b u
    have himg := attachImage_empty_stream chunks gfh
      [("Authorization", "Bearer tok")] none nm h
    have hmap : ((fun att : AttachResult =>
        (makeRequest transport (b ++ "/users/" ++ u ++ "/picture")
          { method := "put", data := att.data
            headers := some att.headers }).dataField) <$>
        attachImageToRequest true gfh (.readable chunks)
          [("Authorization", "Bearer tok")] none nm) =
        Except.error "Provided Readable stream has no data." := by
      rw [himg]
      rfl
    exact hmap
  · intro h
    have hlen : ¬ (drainReadable chunks).length = 0 := by
      simpa [List.length_eq_zero] using h
    simp [attachImageToRequest, hlen]

/-- Concrete instances of `C8_stream_drained_empty_rejected`: a stream
delivering one empty chunk is rejected by the attacher and by
`addProfilePicture`; a stream delivering chunks `[7]` and `[8]` is
drained into the single buffer `[7, 8]` of known length 2. -/
theorem C8_witness :
    attachImageToRequest true (fun _ => []) (.readable [[]]) [] none
      "client-js.jpg" = .error "Provided Readable stream has no data." ∧
    addProfilePicture true (fun _ => []) (fun _ => .ok ⟨200, "OK", [], .obj []⟩)
      "https://issue1.example" "alice" "tok" (.readable [[]]) "client-js.jpg" =
      .error "Provided Readable stream has no data." ∧
    attachImageToRequest true (fun _ => []) (.readable [[7], [8]]) [] none
      "client-js.jpg" =
      .ok { data := .multipart (appendDataToFormData [] [7, 8] 2 "client-js.jpg")
            headers := [] } :=
  ⟨(C8_stream_drained_empty_rejected [[]] (fun _ => []) [] none "client-js.jpg").1 rfl,
   (C8_stream_drained_empty_rejected [[]] (fun _ => []) [] none "client-js.jpg").2.1
     rfl (fun _ => .ok ⟨200, "OK", [], .obj []⟩) "https://issue1.example" "alice",
   (C8_stream_drained_empty_rejected [[7], [8]] (fun _ => []) [] none
     "client-js.jpg").2.2 (by decide)⟩
